import Mathlib

/-!
Verification development for the wowziri authentication and stream-relay
subsystem.  The definitions below are a shallow embedding of the JavaScript
source: the Express route handlers in `src/routes/auth.js` and the link-based
variant of the auth router, the access-guard middleware in
`src/middleware/auth.js`, and the single-shot-to-SSE chunker
`streamTextAsSSE`.  External collaborators (the bcrypt library, the
jsonwebtoken library, the Mongo record store) are modelled by explicit pure
functions capturing their documented contracts; everything a handler reads
from the outside world (looked-up user, current time, generated random code)
is passed as an argument.
-/

namespace Wowziri

/-- Model of the external bcrypt library: `bcrypt.hash` is treated as an
injective tagging of the plaintext (the cost factor is irrelevant to the
control flow of the handlers). -/
def bcryptHash (plain : String) : String :=
  "$2b$10$" ++ plain

/-- Model of `bcrypt.compare`: succeeds exactly on the hash produced from the
same plaintext. -/
def bcryptCompare (plain hash : String) : Bool :=
  hash == bcryptHash plain

/-- A JWT payload as the handlers build it: `{sub, email}` plus an optional
`type` tag (`"refresh"` / `"email-verify"`), absent for access tokens. -/
structure JwtPayload where
  sub : String
  email : String
  type : Option String
  deriving Repr, DecidableEq

/-- Model of a signed JWT: the payload together with issued-at / expiry
instants (seconds) and the signing secret.  Possession of a well-formed value
whose `secret` field equals a given secret models a token that verifies under
that secret (unforgeability of the signature scheme). -/
structure JwtToken where
  payload : JwtPayload
  iat : Nat
  exp : Nat
  secret : String
  deriving Repr, DecidableEq

/-- Model of `jwt.sign(payload, secret, {expiresIn: ttl})` at time `iatSec`. -/
def jwtSign (p : JwtPayload) (secret : String) (iatSec ttlSec : Nat) : JwtToken :=
  { payload := p, iat := iatSec, exp := iatSec + ttlSec, secret := secret }

/-- Errors `jwt.verify` can throw. -/
inductive JwtError
  | invalidSignature
  | expired
  deriving Repr, DecidableEq

/-- Model of `jwt.verify(token, secret)`: checks the signature (secret match)
and the expiry (`jsonwebtoken` rejects once `now ≥ exp`), returning the
decoded payload. -/
def jwtVerify (t : JwtToken) (secret : String) (nowSec : Nat) :
    Except JwtError JwtPayload :=
  if t.secret ≠ secret then .error .invalidSignature
  else if t.exp ≤ nowSec then .error .expired
  else .ok t.payload

/-- The embedded OTP challenge subdocument (`otpSchema` in
`src/models/User.js`).  `user.otp = {}` leaves every field undefined, which is
modelled by `none`; instants are epoch milliseconds. -/
structure Otp where
  codeHash : Option String
  expiresAt : Option Nat
  resendAvailableAt : Option Nat
  deriving Repr, DecidableEq

/-- The cleared challenge (`user.otp = {}`). -/
def Otp.empty : Otp := ⟨none, none, none⟩

/-- The user record (`userSchema` in `src/models/User.js`); timestamps are
epoch milliseconds. -/
structure User where
  id : String
  fullName : String
  gender : String
  email : String
  phone : String
  passwordHash : String
  interests : List String
  emailVerified : Bool
  emailVerifyIssuedAt : Option Nat
  otp : Otp
  createdAt : Nat
  updatedAt : Nat
  deriving Repr, DecidableEq

/-- The public profile object built by `buildUserResponse` in
`src/routes/auth.js`: exactly these nine fields, nothing else. -/
structure UserResponse where
  id : String
  fullName : String
  gender : String
  email : String
  phone : String
  interests : List String
  emailVerified : Bool
  createdAt : Nat
  updatedAt : Nat
  deriving Repr, DecidableEq

/-- The function `buildUserResponse(user)` from `src/routes/auth.js`. -/
def buildUserResponse (u : User) : UserResponse :=
  { id := u.id
    fullName := u.fullName
    gender := u.gender
    email := u.email
    phone := u.phone
    interests := u.interests
    emailVerified := u.emailVerified
    createdAt := u.createdAt
    updatedAt := u.updatedAt }

/-- An outbound email message (the fire-and-forget email collaborator);
`body` carries the OTP code or the verification link. -/
structure EmailMsg where
  recipient : String
  body : String
  deriving Repr, DecidableEq

/-- The function `issueTokens(user)` from `src/routes/auth.js`: throws when either secret
is missing; otherwise signs a 15-minute access token `{sub, email}` with the
access secret and a 7-day refresh token `{sub, email, type:"refresh"}` with
the refresh secret. -/
def issueTokens (accessSecret refreshSecret : Option String) (u : User)
    (nowSec : Nat) : Except String (JwtToken × JwtToken) :=
  match accessSecret, refreshSecret with
  | some a, some r =>
      .ok (jwtSign ⟨u.id, u.email, none⟩ a nowSec (15 * 60),
           jwtSign ⟨u.id, u.email, some "refresh"⟩ r nowSec (7 * 24 * 60 * 60))
  | _, _ => .error "JWT secrets are missing"

/-- The function `setOtp(user)` from `src/routes/auth.js`: hashes the freshly generated
6-digit code, stores the hash with expiry now+5m and resend-eligibility
now+45s (overwriting any prior challenge), and sends the code by email.  The
random code is an argument. -/
def setOtp (u : User) (code : String) (nowMs : Nat) : User × EmailMsg :=
  ({ u with otp := { codeHash := some (bcryptHash code)
                     expiresAt := some (nowMs + 5 * 60 * 1000)
                     resendAvailableAt := some (nowMs + 45 * 1000) } },
   { recipient := u.email, body := code })

/-- Whether the refresh cookie is set, cleared, or untouched by a response. -/
inductive CookieAction
  | keep
  | set (t : JwtToken)
  | clear
  deriving Repr, DecidableEq

/-- The observable outcome of an auth endpoint: HTTP status, the JSON body
fields the handlers emit, and the effect on the refresh cookie. -/
structure AuthResult where
  status : Nat
  error : Option String
  message : Option String
  requiresVerification : Option Bool
  accessToken : Option JwtToken
  user : Option UserResponse
  cookie : CookieAction
  deriving Repr, DecidableEq

/-- A bare failure body `{error}` with no cookie effect. -/
def AuthResult.fail (status : Nat) (err : String) : AuthResult :=
  ⟨status, some err, none, none, none, none, .keep⟩

/-- A failure body `{error}` that also clears the refresh cookie. -/
def AuthResult.failClear (status : Nat) (err : String) : AuthResult :=
  ⟨status, some err, none, none, none, none, .clear⟩

/-- Handler of `POST /login` from `src/routes/auth.js` (after validation): `lookup` is
the result of `User.findOne({email})`, `password` the submitted password,
`otpCode` the random code `setOtp` would generate on the unverified branch.
Returns the response, the persisted user record, and the emails sent. -/
def login (accessSecret refreshSecret : Option String) (lookup : Option User)
    (password otpCode : String) (nowMs : Nat) :
    AuthResult × Option User × List EmailMsg :=
  match lookup with
  | none => (.fail 401 "Invalid credentials", none, [])
  | some u =>
    if ¬ bcryptCompare password u.passwordHash then
      (.fail 401 "Invalid credentials", some u, [])
    else if ¬ u.emailVerified then
      let (u', msg) := setOtp u otpCode nowMs
      (⟨403, some "Email not verified", none, some true, none, none, .keep⟩,
       some u', [msg])
    else
      match issueTokens accessSecret refreshSecret u (nowMs / 1000) with
      | .ok (at', rt) =>
          (⟨200, none, none, none, some at', some (buildUserResponse u), .set rt⟩,
           some u, [])
      | .error _ => (.fail 500 "Unable to login right now", some u, [])

/-- JS truthiness of the stored challenge used by `POST /verify-otp`:
`!otp?.codeHash || !otp.expiresAt` — the code hash must be a nonempty string
and the expiry a present `Date`. -/
def otpActive (o : Otp) : Bool :=
  (match o.codeHash with
   | some h => !h.isEmpty
   | none => false) && o.expiresAt.isSome

/-- Handler of `POST /verify-otp` from `src/routes/auth.js` (after validation): `lookup`
is `User.findOne({email})`.  Checks an active challenge exists, is unexpired,
and the bcrypt comparison succeeds; on success flips `emailVerified`, clears
the challenge, saves, and issues a session. -/
def verifyOtp (accessSecret refreshSecret : Option String)
    (lookup : Option User) (code : String) (nowMs : Nat) :
    AuthResult × Option User :=
  match lookup with
  | none => (.fail 404 "User not found", none)
  | some u =>
    if ¬ otpActive u.otp then
      (.fail 400 "No active verification code", some u)
    else if u.otp.expiresAt.getD 0 < nowMs then
      (.fail 400 "Verification code expired", some u)
    else if ¬ bcryptCompare code (u.otp.codeHash.getD "") then
      (.fail 400 "Invalid verification code", some u)
    else
      let u' := { u with emailVerified := true, otp := Otp.empty }
      match issueTokens accessSecret refreshSecret u' (nowMs / 1000) with
      | .ok (at', rt) =>
          (⟨200, none, none, none, some at', some (buildUserResponse u'), .set rt⟩,
           some u')
      | .error _ => (.fail 500 "Unable to verify code right now", some u')

/-- Handler of `POST /request-otp` from `src/routes/auth.js` (after validation): refuses
with 429 and the remaining wait in seconds while `now < resendAvailableAt`,
otherwise issues a fresh challenge via `setOtp`. -/
def requestOtp (lookup : Option User) (code : String) (nowMs : Nat) :
    AuthResult × Option User × List EmailMsg :=
  match lookup with
  | none => (.fail 404 "User not found", none, [])
  | some u =>
    let resendAt := match u.otp.resendAvailableAt with
      | some t => t
      | none => 0
    if resendAt ≠ 0 ∧ nowMs < resendAt then
      let waitMs := resendAt - nowMs
      (.fail 429 ("Please wait " ++ toString ((waitMs + 999) / 1000) ++
        " seconds before resending"), some u, [])
    else
      let (u', msg) := setOtp u code nowMs
      (⟨200, none, some "Verification code sent", none, none, none, .keep⟩,
       some u', [msg])

/-- Handler of `POST /refresh` from `src/routes/auth.js`: reads the `refreshToken`
cookie; any verification failure inside the `try` clears the cookie and
answers 401; a valid, refresh-typed token for an existing user rotates the
pair. -/
def refreshHandler (accessSecret refreshSecret : Option String)
    (cookie : Option JwtToken) (findById : String → Option User)
    (nowSec : Nat) : AuthResult :=
  match cookie with
  | none => .fail 401 "No refresh token"
  | some tok =>
    match refreshSecret, accessSecret with
    | some rSec, some aSec =>
      match jwtVerify tok rSec nowSec with
      | .error _ => .failClear 401 "Invalid refresh token"
      | .ok decoded =>
        if decoded.type ≠ some "refresh" then
          .failClear 401 "Invalid refresh token"
        else
          match findById decoded.sub with
          | none => .fail 401 "Invalid refresh token"
          | some u =>
            match issueTokens (some aSec) (some rSec) u nowSec with
            | .ok (at', rt) =>
                ⟨200, none, none, none, some at', some (buildUserResponse u), .set rt⟩
            | .error _ => .failClear 401 "Invalid refresh token"
    | _, _ => .failClear 401 "Invalid refresh token"

/-- The middleware `requireAuth` from `src/middleware/auth.js`: 401 when the bearer token is
absent or fails `jwt.verify` under the access secret; otherwise attaches
`{id, email}`.  (No `type` check is performed here.) -/
def requireAuth (accessSecret : Option String) (bearer : Option JwtToken)
    (nowSec : Nat) : Except Nat (String × String) :=
  match bearer with
  | none => .error 401
  | some t =>
    match accessSecret with
    | none => .error 401
    | some s =>
      match jwtVerify t s nowSec with
      | .ok p => .ok (p.sub, p.email)
      | .error _ => .error 401

/-- The function `issueEmailVerifyToken(user)` from the link-based auth router: signs
`{sub, email, type:"email-verify"}` with the email-verify secret, 1-hour
expiry; throws when the secret is missing. -/
def issueEmailVerifyToken (emailVerifySecret : Option String) (u : User)
    (nowSec : Nat) : Except String JwtToken :=
  match emailVerifySecret with
  | none => .error "Email verification secret is missing"
  | some s => .ok (jwtSign ⟨u.id, u.email, some "email-verify"⟩ s nowSec (60 * 60))

/-- The function `sendVerificationLink(user)` from the link-based auth router: issues a
fresh link token, records the issuance instant in `emailVerifyIssuedAt`
(milliseconds; the token's `iat` is the same instant in whole seconds), saves
the user, and emails the link. -/
def sendVerificationLink (emailVerifySecret : Option String) (u : User)
    (nowMs : Nat) : Except String (JwtToken × User × EmailMsg) :=
  match issueEmailVerifyToken emailVerifySecret u (nowMs / 1000) with
  | .error e => .error e
  | .ok tok =>
      .ok (tok, { u with emailVerifyIssuedAt := some nowMs },
           { recipient := u.email, body := "verify-email link" })

/-- The supersession test of `POST /verify-email`: with an issuance marker
present, a token is stale when `iat·1000 < issuedAtMs − 1000` (a one-second
clock-skew tolerance; `decoded.iat` is in seconds, the marker in
milliseconds). -/
def linkSuperseded (tokenIatSec : Nat) (issuedAt : Option Nat) : Bool :=
  match issuedAt with
  | some issuedAtMs => tokenIatSec * 1000 < issuedAtMs - 1000
  | none => false

/-- Handler of `POST /verify-email` from the link-based auth router (after validation):
verifies the token under the email-verify secret, checks the `type` tag, the
subject lookup, the email match, and the supersession rule (`iat·1000 <
emailVerifyIssuedAt − 1000`); on success flips `emailVerified`, clears the
issuance marker and the OTP challenge, and issues a session. -/
def verifyEmail (emailVerifySecret accessSecret refreshSecret : Option String)
    (token : JwtToken) (findById : String → Option User) (nowMs : Nat) :
    AuthResult × Option User :=
  match emailVerifySecret with
  | none => (.fail 400 "Email verification secret missing", none)
  | some evs =>
    match jwtVerify token evs (nowMs / 1000) with
    | .error _ => (.fail 400 "Unable to verify email right now", none)
    | .ok decoded =>
      if decoded.type ≠ some "email-verify" then
        (.fail 400 "Invalid verification token", none)
      else
        match findById decoded.sub with
        | none => (.fail 400 "Invalid verification token", none)
        | some u =>
          if u.email ≠ decoded.email then
            (.fail 400 "Invalid verification token", none)
          else if linkSuperseded token.iat u.emailVerifyIssuedAt then
            (.fail 400
              "Verification link has been superseded. Please use the latest email.",
             some u)
          else
            let u' := { u with emailVerified := true
                               emailVerifyIssuedAt := none
                               otp := Otp.empty }
            match issueTokens accessSecret refreshSecret u' (nowMs / 1000) with
            | .ok (at', rt) =>
                (⟨200, none, none, none, some at', some (buildUserResponse u'),
                  .set rt⟩, some u')
            | .error _ => (.fail 400 "Unable to verify email right now", some u')

/-! ### Stream relay: `streamTextAsSSE` (single-shot upstream → SSE frames) -/

/-- One outgoing server-sent frame: either an incremental-content frame
(`data: {"choices":[{"delta":{"content": payload}}]}`) or the completion
marker (`data: [DONE]`). -/
inductive SseFrame
  | content (payload : List Char)
  | done
  deriving Repr, DecidableEq

/-- The successive `text.slice(index, index + 80)` chunks produced by the
`pushChunk` loop of `streamTextAsSSE`. -/
def sseChunks (cs : List Char) : List (List Char) :=
  if cs.isEmpty then []
  else cs.take 80 :: sseChunks (cs.drop 80)
termination_by cs.length
decreasing_by
  simp only [List.length_drop]
  cases cs with
  | nil => simp_all
  | cons c cs => simp; omega

/-- The relay `streamTextAsSSE(text)`: every chunk as a content frame, then exactly one
completion marker. -/
def streamTextAsSSE (text : List Char) : List SseFrame :=
  (sseChunks text).map SseFrame.content ++ [SseFrame.done]

/-! ### Concurrent signup race (`POST /signup` controller + unique index) -/

/-- Where a signup request stands in the `POST /signup` handler: before the
`findOne` pre-check, past the pre-check and about to `create`, or finished
with an HTTP status. -/
inductive ProcState
  | start
  | checked
  | done (status : Nat)
  deriving Repr, DecidableEq

/-- One atomic step of the signup controller against the record store (the
store is the list of emails already inserted; the unique index makes the
insert itself fail on a duplicate).  `findOne` hit → 409; insert hit by the
unique index → the `catch` answers 500; successful insert → 201. -/
def stepProc (store : List String) (email : String) :
    ProcState → ProcState × List String
  | .start => if email ∈ store then (.done 409, store) else (.checked, store)
  | .checked =>
      if email ∈ store then (.done 500, store)
      else (.done 201, email :: store)
  | .done s => (.done s, store)

/-- Joint state of two racing signup requests for the same email. -/
structure RaceState where
  store : List String
  p1 : ProcState
  p2 : ProcState
  deriving Repr, DecidableEq

/-- One scheduler step: `true` steps request 1, `false` steps request 2. -/
def raceStep (email : String) (b : Bool) (s : RaceState) : RaceState :=
  if b then
    let (p, st) := stepProc s.store email s.p1
    { store := st, p1 := p, p2 := s.p2 }
  else
    let (p, st) := stepProc s.store email s.p2
    { store := st, p1 := s.p1, p2 := p }

/-- Run an interleaving of the two requests. -/
def runSchedule (email : String) (sched : List Bool) (s : RaceState) :
    RaceState :=
  match sched with
  | [] => s
  | b :: rest => runSchedule email rest (raceStep email b s)

/-- Both requests at the top of the handler, empty store. -/
def raceInit : RaceState := ⟨[], .start, .start⟩

/-- How many of the two racing requests have answered 201. -/
def succCount (s : RaceState) : Nat :=
  (if s.p1 = ProcState.done 201 then 1 else 0) +
  (if s.p2 = ProcState.done 201 then 1 else 0)

/-- A request that finished unsuccessfully: 409 from the `findOne` pre-check
or 500 from the unique-index insert failure. -/
def failStatus (p : ProcState) : Prop :=
  p = ProcState.done 409 ∨ p = ProcState.done 500

/-- Invariant of the signup race: the store never holds the email twice, the
number of 201 answers equals the number of stored copies, every finished
request answered 201, 409 or 500, and a failed request implies the email is
in the store (somebody inserted it). -/
def raceInv (email : String) (s : RaceState) : Prop :=
  s.store.count email ≤ 1 ∧
  succCount s = s.store.count email ∧
  (∀ st, s.p1 = ProcState.done st → st = 201 ∨ st = 409 ∨ st = 500) ∧
  (∀ st, s.p2 = ProcState.done st → st = 201 ∨ st = 409 ∨ st = 500) ∧
  (failStatus s.p1 → email ∈ s.store) ∧
  (failStatus s.p2 → email ∈ s.store)

/-- A concrete user record used to instantiate the witness theorems. -/
def sampleUser : User :=
  { id := "u1"
    fullName := "Ada"
    gender := "female"
    email := "ada@example.com"
    phone := "+111"
    passwordHash := bcryptHash "pw1234!x"
    interests := []
    emailVerified := true
    emailVerifyIssuedAt := none
    otp := Otp.empty
    createdAt := 0
    updatedAt := 0 }

/-- A concrete unverified user holding a live OTP challenge. -/
def otpUser : User :=
  { sampleUser with emailVerified := false
                    otp := ⟨some (bcryptHash "123456"), some 1000, some 45⟩ }

/-- Handler of `GET /me` from `src/routes/auth.js` (after `requireAuth`): `lookup` is
`User.findById(req.user.id)`. -/
def meHandler (lookup : Option User) : AuthResult :=
  match lookup with
  | none => .fail 404 "User not found"
  | some u => ⟨200, none, none, none, none, some (buildUserResponse u), .keep⟩

/-- Handler of `POST /interests` from the link-based auth router (after `requireAuth`
and validation): trims each submitted tag, drops the falsy (empty) ones, and
replaces the user's interest list. -/
def interestsHandler (lookup : Option User) (interests : List String) :
    AuthResult × Option User :=
  match lookup with
  | none => (.fail 404 "User not found", none)
  | some u =>
    let cleaned := (interests.map String.trim).filter (fun s => !s.isEmpty)
    let u' := { u with interests := cleaned }
    (⟨200, none, none, none, none, some (buildUserResponse u'), .keep⟩, some u')

/-- The `user: {id, email}` reference `POST /signup` returns on success —
identifiers only, never a profile or token. -/
structure SignupUserRef where
  id : String
  email : String
  deriving Repr, DecidableEq

/-- The observable outcome of `POST /signup`. -/
structure SignupResult where
  status : Nat
  error : Option String
  message : Option String
  user : Option SignupUserRef
  deriving Repr, DecidableEq

/-- Handler of `POST /signup` from `src/routes/auth.js` (after validation): `existing`
is `User.findOne({$or: [{email}, {phone}]})`, `fresh` the record
`User.create` persists (with `emailVerified = false` and the hashed
password), `code` the random OTP. -/
def signup (existing : Option User) (fresh : User) (code : String)
    (nowMs : Nat) : SignupResult × Option User × List EmailMsg :=
  match existing with
  | some _ =>
      (⟨409, some "Email or phone already registered", none, none⟩, none, [])
  | none =>
      let (u', msg) := setOtp fresh code nowMs
      (⟨201, none, some "Signup successful, verification code sent to email.",
        some ⟨fresh.id, fresh.email⟩⟩, some u', [msg])

/-! ## Basic facts about the modelled collaborators -/

theorem bcryptHash_length (s : String) : (bcryptHash s).length = 7 + s.length := by
  simp [bcryptHash, String.length_append]
  decide

theorem bcryptHash_not_isEmpty (s : String) : (bcryptHash s).isEmpty = false := by
  have h := bcryptHash_length s
  by_contra hc
  simp only [Bool.not_eq_false] at hc
  rw [String.isEmpty_iff] at hc
  rw [hc] at h
  have h0 : ("" : String).length = 0 := rfl
  omega

theorem bcryptHash_inj {a b : String} (h : bcryptHash a = bcryptHash b) : a = b := by
  simp only [bcryptHash] at h
  have hd : ("$2b$10$" ++ a).data = ("$2b$10$" ++ b).data := by rw [h]
  simp only [String.data_append] at hd
  exact String.ext (List.append_cancel_left hd)

theorem bcryptCompare_self (c : String) : bcryptCompare c (bcryptHash c) = true := by
  simp [bcryptCompare]

theorem bcryptCompare_ne {c c' : String} (h : c ≠ c') :
    bcryptCompare c (bcryptHash c') = false := by
  simp only [bcryptCompare, beq_eq_false_iff_ne, ne_eq]
  intro he
  exact h (bcryptHash_inj he).symm

/-! ## Claims -/

/-- C1: OTP consumption is one-shot.  For a user holding a live, unexpired
challenge whose stored hash matches the presented code, `POST /verify-otp`
succeeds (200 with a fresh session), sets `emailVerified = true` and clears
the stored challenge; presenting the same code again afterwards fails with
the no-active-code error (400 "No active verification code") instead of
succeeding again. -/
theorem otp_one_shot_consumption
    (aSec rSec : String) (u : User) (code : String) (expMs nowMs now2 : Nat)
    (hHash : u.otp.codeHash = some (bcryptHash code))
    (hExp : u.otp.expiresAt = some expMs)
    (hLive : nowMs ≤ expMs) :
    ∃ u',
      verifyOtp (some aSec) (some rSec) (some u) code nowMs =
        (⟨200, none, none, none,
          some (jwtSign ⟨u.id, u.email, none⟩ aSec (nowMs / 1000) (15 * 60)),
          some (buildUserResponse u'),
          .set (jwtSign ⟨u.id, u.email, some "refresh"⟩ rSec (nowMs / 1000)
            (7 * 24 * 60 * 60))⟩,
         some u') ∧
      u'.emailVerified = true ∧ u'.otp = Otp.empty ∧
      verifyOtp (some aSec) (some rSec) (some u') code now2 =
        (.fail 400 "No active verification code", some u') := by
  refine ⟨{ u with emailVerified := true, otp := Otp.empty }, ?_, rfl, rfl, ?_⟩
  · have hActive : otpActive u.otp = true := by
      simp [otpActive, hHash, hExp, bcryptHash_not_isEmpty]
    have hNotExp : ¬ (u.otp.expiresAt.getD 0 < nowMs) := by
      rw [hExp]; simpa using hLive
    simp [verifyOtp, hActive, hNotExp, hHash, bcryptCompare_self, issueTokens]
  · simp [verifyOtp, otpActive, Otp.empty]

/-- Witness for C1: concrete consumption of the challenge held by `otpUser`
at time 500, re-presented at time 2000. -/
theorem otp_one_shot_consumption_witness :
    ∃ u',
      verifyOtp (some "as") (some "rs") (some otpUser) "123456" 500 =
        (⟨200, none, none, none,
          some (jwtSign ⟨otpUser.id, otpUser.email, none⟩ "as" (500 / 1000) (15 * 60)),
          some (buildUserResponse u'),
          .set (jwtSign ⟨otpUser.id, otpUser.email, some "refresh"⟩ "rs" (500 / 1000)
            (7 * 24 * 60 * 60))⟩,
         some u') ∧
      u'.emailVerified = true ∧ u'.otp = Otp.empty ∧
      verifyOtp (some "as") (some "rs") (some u') "123456" 2000 =
        (.fail 400 "No active verification code", some u') :=
  otp_one_shot_consumption "as" "rs" otpUser "123456" 1000 500 2000 rfl rfl (by decide)

/-- C5: credential-failure indistinguishability.  The login response when no
user exists for the email is identical (status, body and cookie effect) to
the response when the user exists but the bcrypt comparison fails — even at
different times. -/
theorem login_credential_indistinguishability
    (aSec rSec : Option String) (u : User) (password otpCode otpCode' : String)
    (nowMs nowMs' : Nat)
    (hPw : bcryptCompare password u.passwordHash = false) :
    (login aSec rSec none password otpCode nowMs).1 =
      (login aSec rSec (some u) password otpCode' nowMs').1 := by
  simp [login, hPw]

/-- Witness for C5: wrong password against `sampleUser` is answered exactly
like a login for an unknown account. -/
theorem login_credential_indistinguishability_witness :
    (login (some "as") (some "rs") none "wrong" "111111" 5).1 =
      (login (some "as") (some "rs") (some sampleUser) "wrong" "222222" 99).1 :=
  login_credential_indistinguishability (some "as") (some "rs") sampleUser
    "wrong" "111111" "222222" 5 99 (by decide)

/-- C4: a login with correct credentials for an unverified user returns no
access token: it is a 403 carrying `requiresVerification: true` with no
cookie change, the persisted record carries exactly the one freshly issued
challenge, and exactly one email is sent. -/
theorem login_unverified_requires_verification
    (aSec rSec : Option String) (u : User) (password otpCode : String)
    (nowMs : Nat)
    (hPw : bcryptCompare password u.passwordHash = true)
    (hUnverified : u.emailVerified = false) :
    login aSec rSec (some u) password otpCode nowMs =
      (⟨403, some "Email not verified", none, some true, none, none, .keep⟩,
       some ({ u with otp := { codeHash := some (bcryptHash otpCode)
                               expiresAt := some (nowMs + 5 * 60 * 1000)
                               resendAvailableAt := some (nowMs + 45 * 1000) } }),
       [{ recipient := u.email, body := otpCode }]) := by
  simp [login, hPw, hUnverified, setOtp]

/-- Witness for C4: concrete unverified login for `otpUser` with the right
password. -/
theorem login_unverified_requires_verification_witness :
    login (some "as") (some "rs") (some otpUser) "pw1234!x" "654321" 7 =
      (⟨403, some "Email not verified", none, some true, none, none, .keep⟩,
       some ({ otpUser with otp := { codeHash := some (bcryptHash "654321")
                                     expiresAt := some (7 + 5 * 60 * 1000)
                                     resendAvailableAt := some (7 + 45 * 1000) } }),
       [{ recipient := otpUser.email, body := "654321" }]) :=
  login_unverified_requires_verification (some "as") (some "rs") otpUser
    "pw1234!x" "654321" 7 (by decide) rfl

/-- C2: token round-trip and type-tag separation.  Verifying the access token
minted by `issueTokens` under the access secret recovers the original subject
id and email (and passes `requireAuth`); presenting that access token where a
refresh token is expected (`POST /refresh`) fails with the invalid-token 401;
and presenting the refresh token where an access token is expected
(`requireAuth`) also fails with 401, the secrets being independent. -/
theorem token_roundtrip_and_type_separation
    (aSec rSec : String) (u : User) (iatSec nowSec : Nat)
    (accessTok refreshTok : JwtToken)
    (hIssue : issueTokens (some aSec) (some rSec) u iatSec =
      .ok (accessTok, refreshTok))
    (hFresh : nowSec < iatSec + 15 * 60)
    (hDistinct : aSec ≠ rSec)
    (findById : String → Option User) :
    jwtVerify accessTok aSec nowSec = .ok ⟨u.id, u.email, none⟩ ∧
    requireAuth (some aSec) (some accessTok) nowSec = .ok (u.id, u.email) ∧
    refreshHandler (some aSec) (some rSec) (some accessTok) findById nowSec =
      .failClear 401 "Invalid refresh token" ∧
    requireAuth (some aSec) (some refreshTok) nowSec = .error 401 := by
  simp only [issueTokens, Except.ok.injEq, Prod.mk.injEq] at hIssue
  obtain ⟨hA, hR⟩ := hIssue
  subst hA
  subst hR
  have hNotExp : ¬ (iatSec + 15 * 60 ≤ nowSec) := by omega
  refine ⟨?_, ?_, ?_, ?_⟩
  · simp [jwtVerify, jwtSign, hNotExp]
  · simp [requireAuth, jwtVerify, jwtSign, hNotExp]
  · simp [refreshHandler, jwtVerify, jwtSign, hDistinct]
  · simp [requireAuth, jwtVerify, jwtSign, Ne.symm hDistinct]

/-- Witness for C2: concrete round-trip under secrets "as" / "rs". -/
theorem token_roundtrip_and_type_separation_witness :
    jwtVerify (jwtSign ⟨sampleUser.id, sampleUser.email, none⟩ "as" 0 (15 * 60))
        "as" 10 = .ok ⟨sampleUser.id, sampleUser.email, none⟩ ∧
    requireAuth (some "as")
        (some (jwtSign ⟨sampleUser.id, sampleUser.email, none⟩ "as" 0 (15 * 60)))
        10 = .ok (sampleUser.id, sampleUser.email) ∧
    refreshHandler (some "as") (some "rs")
        (some (jwtSign ⟨sampleUser.id, sampleUser.email, none⟩ "as" 0 (15 * 60)))
        (fun _ => none) 10 = .failClear 401 "Invalid refresh token" ∧
    requireAuth (some "as")
        (some (jwtSign ⟨sampleUser.id, sampleUser.email, some "refresh"⟩ "rs" 0
          (7 * 24 * 60 * 60))) 10 = .error 401 :=
  token_roundtrip_and_type_separation "as" "rs" sampleUser 0 10 _ _ rfl
    (by decide) (by decide) (fun _ => none)

/-- C3: refresh semantics.  An absent refresh cookie yields 401 (and no new
cookie is issued); a present cookie that is expired, wrongly signed or not
refresh-typed yields 401 and clears the cookie; a valid refresh token for an
existing user yields 200 with a freshly issued access token and the cookie
replaced by a freshly issued (rotated) refresh token. -/
theorem refresh_semantics
    (aSec rSec : String) (findById : String → Option User) (nowSec : Nat) :
    refreshHandler (some aSec) (some rSec) none findById nowSec =
        .fail 401 "No refresh token" ∧
    (∀ tok : JwtToken,
        tok.secret ≠ rSec ∨ tok.exp ≤ nowSec ∨ tok.payload.type ≠ some "refresh" →
        refreshHandler (some aSec) (some rSec) (some tok) findById nowSec =
          .failClear 401 "Invalid refresh token") ∧
    (∀ tok u, tok.secret = rSec → nowSec < tok.exp →
        tok.payload.type = some "refresh" →
        findById tok.payload.sub = some u →
        refreshHandler (some aSec) (some rSec) (some tok) findById nowSec =
          ⟨200, none, none, none,
            some (jwtSign ⟨u.id, u.email, none⟩ aSec nowSec (15 * 60)),
            some (buildUserResponse u),
            .set (jwtSign ⟨u.id, u.email, some "refresh"⟩ rSec nowSec
              (7 * 24 * 60 * 60))⟩) := by
  refine ⟨rfl, ?_, ?_⟩
  · intro tok h
    by_cases hs : tok.secret = rSec
    · by_cases he : tok.exp ≤ nowSec
      · simp [refreshHandler, jwtVerify, hs, he]
      · have ht : tok.payload.type ≠ some "refresh" := by tauto
        simp [refreshHandler, jwtVerify, hs, he, ht]
    · simp [refreshHandler, jwtVerify, hs]
  · intro tok u h1 h2 h3 h4
    have hNotExp : ¬ (tok.exp ≤ nowSec) := by omega
    simp [refreshHandler, jwtVerify, h1, hNotExp, h3, h4, issueTokens]

/-- Witness for C3: concrete rotation of a valid refresh cookie for
`sampleUser`. -/
theorem refresh_semantics_witness :
    refreshHandler (some "as") (some "rs")
        (some (jwtSign ⟨"u1", "ada@example.com", some "refresh"⟩ "rs" 0
          (7 * 24 * 60 * 60)))
        (fun i => if i = "u1" then some sampleUser else none) 10 =
      ⟨200, none, none, none,
        some (jwtSign ⟨sampleUser.id, sampleUser.email, none⟩ "as" 10 (15 * 60)),
        some (buildUserResponse sampleUser),
        .set (jwtSign ⟨sampleUser.id, sampleUser.email, some "refresh"⟩ "rs" 10
          (7 * 24 * 60 * 60))⟩ :=
  (refresh_semantics "as" "rs"
      (fun i => if i = "u1" then some sampleUser else none) 10).2.2
    (jwtSign ⟨"u1", "ada@example.com", some "refresh"⟩ "rs" 0 (7 * 24 * 60 * 60))
    sampleUser rfl (by decide) rfl (by decide)

/-- C6: resend throttling.  With a challenge issued at `t0`, a resend request
before `t0 + 45s` fails with 429 reporting the remaining wait in whole
seconds (rounded up) and leaves the stored challenge and outbox untouched;
once 45 seconds have elapsed it succeeds, the new challenge replaces the
prior one, and the prior code fails consumption (400, no token, record
unchanged) from then on. -/
theorem resend_throttling
    (aSec rSec : String) (u : User) (c0 c1 : String) (t0 : Nat)
    (u0 : User) (hU0 : u0 = (setOtp u c0 t0).1)
    (hCode : c0 ≠ c1) :
    (∀ nowMs, nowMs < t0 + 45 * 1000 →
       requestOtp (some u0) c1 nowMs =
         (.fail 429 ("Please wait " ++
            toString ((t0 + 45 * 1000 - nowMs + 999) / 1000) ++
            " seconds before resending"), some u0, [])) ∧
    (∀ nowMs u1, t0 + 45 * 1000 ≤ nowMs → u1 = (setOtp u0 c1 nowMs).1 →
       requestOtp (some u0) c1 nowMs =
         (⟨200, none, some "Verification code sent", none, none, none, .keep⟩,
          some u1, [{ recipient := u.email, body := c1 }]) ∧
       ∀ now2,
         (verifyOtp (some aSec) (some rSec) (some u1) c0 now2).1.status = 400 ∧
         (verifyOtp (some aSec) (some rSec) (some u1) c0 now2).1.accessToken =
           none ∧
         (verifyOtp (some aSec) (some rSec) (some u1) c0 now2).2 = some u1) := by
  subst hU0
  refine ⟨?_, ?_⟩
  · intro nowMs hlt
    have h1 : t0 + 45 * 1000 ≠ 0 := by omega
    simp [requestOtp, setOtp, h1, hlt]
  · intro nowMs u1 hge hU1
    subst hU1
    have h1 : ¬ (nowMs < t0 + 45 * 1000) := by omega
    refine ⟨by simp [requestOtp, setOtp, h1], ?_⟩
    intro now2
    by_cases hE : nowMs + 5 * 60 * 1000 < now2
    · simp [verifyOtp, otpActive, setOtp, bcryptHash_not_isEmpty, hE,
        AuthResult.fail]
    · simp [verifyOtp, otpActive, setOtp, bcryptHash_not_isEmpty, hE,
        bcryptCompare_ne hCode, AuthResult.fail]

/-- Witness for C6: a resend 10 seconds after issuance is throttled with a
35-second wait. -/
theorem resend_throttling_witness :
    requestOtp (some ((setOtp sampleUser "111111" 0).1)) "222222" 10000 =
      (.fail 429 ("Please wait " ++
         toString ((0 + 45 * 1000 - 10000 + 999) / 1000) ++
         " seconds before resending"),
       some ((setOtp sampleUser "111111" 0).1), []) :=
  (resend_throttling "as" "rs" sampleUser "111111" "222222" 0 _ rfl
    (by decide)).1 10000 (by decide)

/-- C7: link supersession.  After link A is issued and then link B is issued
for the same user (updating the recorded issuance instant), consuming A fails
with the superseded error whenever A's issued-at predates the recorded
instant beyond the one-second clock-skew tolerance, while consuming B
succeeds: it sets `emailVerified = true` and clears the issuance marker and
any OTP challenge. -/
theorem link_supersession
    (evs aSec rSec : String) (u : User) (emA emB : EmailMsg)
    (tokA tokB : JwtToken) (uA uB : User) (tA tB nowA nowB : Nat)
    (hA : sendVerificationLink (some evs) u tA = .ok (tokA, uA, emA))
    (hB : sendVerificationLink (some evs) uA tB = .ok (tokB, uB, emB))
    (hGap : (tA / 1000) * 1000 < tB - 1000)
    (hAfresh : nowA / 1000 < tA / 1000 + 60 * 60)
    (hBfresh : nowB / 1000 < tB / 1000 + 60 * 60)
    (findById : String → Option User)
    (hFind : findById u.id = some uB) :
    verifyEmail (some evs) (some aSec) (some rSec) tokA findById nowA =
      (.fail 400
        "Verification link has been superseded. Please use the latest email.",
       some uB) ∧
    ∃ u',
      verifyEmail (some evs) (some aSec) (some rSec) tokB findById nowB =
        (⟨200, none, none, none,
          some (jwtSign ⟨u.id, u.email, none⟩ aSec (nowB / 1000) (15 * 60)),
          some (buildUserResponse u'),
          .set (jwtSign ⟨u.id, u.email, some "refresh"⟩ rSec (nowB / 1000)
            (7 * 24 * 60 * 60))⟩,
         some u') ∧
      u'.emailVerified = true ∧ u'.emailVerifyIssuedAt = none ∧
      u'.otp = Otp.empty := by
  simp only [sendVerificationLink, issueEmailVerifyToken, Except.ok.injEq,
    Prod.mk.injEq] at hA hB
  obtain ⟨hTokA, hUA, hEmA⟩ := hA
  obtain ⟨hTokB, hUB, hEmB⟩ := hB
  subst hTokA
  subst hUA
  subst hTokB
  subst hUB
  have hNotExpA : ¬ (tA / 1000 + 60 * 60 ≤ nowA / 1000) := by omega
  have hNotExpB : ¬ (tB / 1000 + 60 * 60 ≤ nowB / 1000) := by omega
  have hSupA : linkSuperseded (tA / 1000) (some tB) = true := by
    simp [linkSuperseded, hGap]
  have hNoSupB : linkSuperseded (tB / 1000) (some tB) = false := by
    have hdm := Nat.div_add_mod tB 1000
    have hm : tB % 1000 < 1000 := Nat.mod_lt _ (by omega)
    simp only [linkSuperseded, decide_eq_false_iff_not, Nat.not_lt]
    omega
  constructor
  · simp [verifyEmail, jwtVerify, jwtSign, hNotExpA, hFind, hSupA]
  · refine
      ⟨{ u with emailVerified := true, emailVerifyIssuedAt := none, otp := Otp.empty },
       ?_, rfl, rfl, rfl⟩
    simp [verifyEmail, jwtVerify, jwtSign, hNotExpB, hFind, hNoSupB,
      issueTokens]

/-- Witness for C7: concrete supersession of a link issued at 0ms by one
issued at 5000ms, consumed at 10000ms and 20000ms. -/
theorem link_supersession_witness :
    verifyEmail (some "es") (some "as") (some "rs")
        (jwtSign ⟨"u1", "ada@example.com", some "email-verify"⟩ "es" 0 (60 * 60))
        (fun i => if i = "u1"
          then some { sampleUser with emailVerifyIssuedAt := some 5000 }
          else none) 10000 =
      (.fail 400
        "Verification link has been superseded. Please use the latest email.",
       some { sampleUser with emailVerifyIssuedAt := some 5000 }) ∧
    ∃ u',
      verifyEmail (some "es") (some "as") (some "rs")
          (jwtSign ⟨"u1", "ada@example.com", some "email-verify"⟩ "es" 5 (60 * 60))
          (fun i => if i = "u1"
            then some { sampleUser with emailVerifyIssuedAt := some 5000 }
            else none) 20000 =
        (⟨200, none, none, none,
          some (jwtSign ⟨sampleUser.id, sampleUser.email, none⟩ "as"
            (20000 / 1000) (15 * 60)),
          some (buildUserResponse u'),
          .set (jwtSign ⟨sampleUser.id, sampleUser.email, some "refresh"⟩ "rs"
            (20000 / 1000) (7 * 24 * 60 * 60))⟩,
         some u') ∧
      u'.emailVerified = true ∧ u'.emailVerifyIssuedAt = none ∧
      u'.otp = Otp.empty :=
  link_supersession "es" "as" "rs" sampleUser
    { recipient := sampleUser.email, body := "verify-email link" }
    { recipient := sampleUser.email, body := "verify-email link" }
    (jwtSign ⟨"u1", "ada@example.com", some "email-verify"⟩ "es" 0 (60 * 60))
    (jwtSign ⟨"u1", "ada@example.com", some "email-verify"⟩ "es" 5 (60 * 60))
    { sampleUser with emailVerifyIssuedAt := some 0 }
    { sampleUser with emailVerifyIssuedAt := some 5000 }
    0 5000 10000 20000 rfl rfl (by decide) (by decide) (by decide)
    (fun i => if i = "u1"
      then some { sampleUser with emailVerifyIssuedAt := some 5000 }
      else none)
    (by decide)

theorem sseChunks_nil : sseChunks [] = [] := by
  rw [sseChunks]
  rfl

theorem sseChunks_ne_nil (cs : List Char) (h : cs ≠ []) :
    sseChunks cs = cs.take 80 :: sseChunks (cs.drop 80) := by
  rw [sseChunks]
  simp [h]

theorem sseChunks_join (cs : List Char) : (sseChunks cs).flatten = cs := by
  by_cases h : cs = []
  · subst h
    rw [sseChunks_nil]
    rfl
  · rw [sseChunks_ne_nil cs h]
    have ih := sseChunks_join (cs.drop 80)
    simp only [List.flatten_cons, ih]
    exact List.take_append_drop 80 cs
termination_by cs.length
decreasing_by
  simp only [List.length_drop]
  cases cs with
  | nil => simp_all
  | cons c cs => simp; omega

theorem sseChunks_length (cs : List Char) :
    (sseChunks cs).length = (cs.length + 79) / 80 := by
  by_cases h : cs = []
  · subst h
    rw [sseChunks_nil]
    rfl
  · rw [sseChunks_ne_nil cs h]
    have ih := sseChunks_length (cs.drop 80)
    have hpos : 0 < cs.length := List.length_pos.mpr h
    simp only [List.length_cons, ih, List.length_drop]
    omega
termination_by cs.length
decreasing_by
  simp only [List.length_drop]
  cases cs with
  | nil => simp_all
  | cons c cs => simp; omega

theorem sseChunks_sizes (cs : List Char) :
    ∀ l ∈ sseChunks cs, 0 < l.length ∧ l.length ≤ 80 := by
  by_cases h : cs = []
  · subst h
    rw [sseChunks_nil]
    intro l hl
    cases hl
  · rw [sseChunks_ne_nil cs h]
    intro l hl
    have hpos : 0 < cs.length := List.length_pos.mpr h
    cases hl with
    | head =>
        constructor
        · simp [List.length_take]
          omega
        · simp [List.length_take]
    | tail _ hm => exact sseChunks_sizes (cs.drop 80) l hm
termination_by cs.length
decreasing_by
  simp only [List.length_drop]
  cases cs with
  | nil => simp_all
  | cons c cs => simp; omega

theorem sseChunks_dropLast (cs : List Char) :
    ∀ l ∈ (sseChunks cs).dropLast, l.length = 80 := by
  by_cases h : cs = []
  · subst h
    rw [sseChunks_nil]
    intro l hl
    cases hl
  · rw [sseChunks_ne_nil cs h]
    by_cases h80 : cs.drop 80 = []
    · rw [h80, sseChunks_nil]
      intro l hl
      cases hl
    · have hrest : sseChunks (cs.drop 80) ≠ [] := by
        rw [sseChunks_ne_nil _ h80]
        simp
      rw [List.dropLast_cons_of_ne_nil hrest]
      intro l hl
      cases hl with
      | head =>
          have hlen : 80 < cs.length := by
            have := List.length_pos.mpr h80
            simp only [List.length_drop] at this
            omega
          simp [List.length_take]
          omega
      | tail _ hm => exact sseChunks_dropLast (cs.drop 80) l hm
termination_by cs.length
decreasing_by
  simp only [List.length_drop]
  cases cs with
  | nil => simp_all
  | cons c cs => simp; omega

theorem sseChunks_of_length_200 (cs : List Char) (h : cs.length = 200) :
    (sseChunks cs).map List.length = [80, 80, 40] := by
  have h1 : cs ≠ [] := by
    intro he
    rw [he] at h
    simp at h
  rw [sseChunks_ne_nil cs h1]
  have hd1 : (cs.drop 80).length = 120 := by simp [h]
  have h2 : cs.drop 80 ≠ [] := by
    intro he
    rw [he] at hd1
    simp at hd1
  rw [sseChunks_ne_nil _ h2]
  have hd2 : ((cs.drop 80).drop 80).length = 40 := by
    simp only [List.length_drop, hd1]
  have h3 : (cs.drop 80).drop 80 ≠ [] := by
    intro he
    rw [he] at hd2
    simp at hd2
  rw [sseChunks_ne_nil _ h3]
  have hd3 : ((cs.drop 80).drop 80).drop 80 = [] := by
    rw [← List.length_eq_zero]
    simp only [List.length_drop, hd2]
  rw [hd3, sseChunks_nil]
  simp [List.length_take, h, hd1, hd2]

/-- C8: batch-to-stream chunking.  For every single-shot upstream text the
relay emits `⌈length/80⌉` content frames whose payloads are 80 bytes each
except a shorter (still nonempty) final frame, followed by exactly one
completion marker, and the concatenation of all frame payloads reconstructs
the text exactly; in particular a 200-character text yields exactly 3 frames
of sizes 80, 80, 40. -/
theorem stream_relay_chunking (text : List Char) :
    (sseChunks text).flatten = text ∧
    (sseChunks text).length = (text.length + 79) / 80 ∧
    (∀ l ∈ (sseChunks text).dropLast, l.length = 80) ∧
    (∀ l ∈ sseChunks text, 0 < l.length ∧ l.length ≤ 80) ∧
    streamTextAsSSE text =
      (sseChunks text).map SseFrame.content ++ [SseFrame.done] ∧
    (streamTextAsSSE text).count SseFrame.done = 1 ∧
    (text.length = 200 → (sseChunks text).map List.length = [80, 80, 40]) := by
  refine ⟨sseChunks_join text, sseChunks_length text, sseChunks_dropLast text,
    sseChunks_sizes text, rfl, ?_, sseChunks_of_length_200 text⟩
  simp only [streamTextAsSSE, List.count_append]
  have h0 : (List.map SseFrame.content (sseChunks text)).count SseFrame.done = 0 := by
    rw [List.count_eq_zero]
    simp
  rw [h0]
  rfl

/-- Witness for C8: the 200-character text made of 200 copies of 'a' is cut
into frames of sizes 80, 80, 40 whose concatenation is the original text. -/
theorem stream_relay_chunking_witness :
    (sseChunks (List.replicate 200 'a')).map List.length = [80, 80, 40] ∧
    (sseChunks (List.replicate 200 'a')).flatten = List.replicate 200 'a' :=
  ⟨(stream_relay_chunking (List.replicate 200 'a')).2.2.2.2.2.2
      (by rw [List.length_replicate]),
   (stream_relay_chunking (List.replicate 200 'a')).1⟩

/-- C9: password-hash confidentiality.  `buildUserResponse` is insensitive to
the password hash, the OTP challenge internals and the link-issuance marker;
and every operation that returns a user object (login, verify-otp, refresh,
verify-email, me, interests) returns it through `buildUserResponse` applied
to the persisted record, while signup returns identifiers only — so no
response ever carries the password hash or challenge internals. -/
theorem public_profile_excludes_secrets :
    (∀ (u : User) (ph : String) (o : Otp) (iv : Option Nat),
       buildUserResponse
         { u with passwordHash := ph, otp := o, emailVerifyIssuedAt := iv } =
         buildUserResponse u) ∧
    (∀ aSec rSec lookup pw c nowMs,
       (login aSec rSec lookup pw c nowMs).1.user = none ∨
       ∃ w, (login aSec rSec lookup pw c nowMs).2.1 = some w ∧
         (login aSec rSec lookup pw c nowMs).1.user =
           some (buildUserResponse w)) ∧
    (∀ aSec rSec lookup c nowMs,
       (verifyOtp aSec rSec lookup c nowMs).1.user = none ∨
       ∃ w, (verifyOtp aSec rSec lookup c nowMs).2 = some w ∧
         (verifyOtp aSec rSec lookup c nowMs).1.user =
           some (buildUserResponse w)) ∧
    (∀ aSec rSec cookie findById nowSec,
       (refreshHandler aSec rSec cookie findById nowSec).user = none ∨
       ∃ w, (refreshHandler aSec rSec cookie findById nowSec).user =
         some (buildUserResponse w)) ∧
    (∀ evs aSec rSec tok findById nowMs,
       (verifyEmail evs aSec rSec tok findById nowMs).1.user = none ∨
       ∃ w, (verifyEmail evs aSec rSec tok findById nowMs).2 = some w ∧
         (verifyEmail evs aSec rSec tok findById nowMs).1.user =
           some (buildUserResponse w)) ∧
    (∀ lookup,
       (meHandler lookup).user = none ∨
       ∃ w, lookup = some w ∧
         (meHandler lookup).user = some (buildUserResponse w)) ∧
    (∀ lookup tags,
       (interestsHandler lookup tags).1.user = none ∨
       ∃ w, (interestsHandler lookup tags).2 = some w ∧
         (interestsHandler lookup tags).1.user = some (buildUserResponse w)) ∧
    (∀ existing fresh code nowMs,
       (signup existing fresh code nowMs).1.user = none ∨
       (signup existing fresh code nowMs).1.user =
         some ⟨fresh.id, fresh.email⟩) := by
  refine ⟨?_, ?_, ?_, ?_, ?_, ?_, ?_, ?_⟩
  · intro u ph o iv
    rfl
  · intro aSec rSec lookup pw c nowMs
    cases lookup with
    | none => left; rfl
    | some u =>
      by_cases hc : bcryptCompare pw u.passwordHash = true
      · cases hv : u.emailVerified with
        | false => left; simp [login, hc, hv, setOtp, AuthResult.fail]
        | true =>
          cases aSec with
          | none => left; simp [login, hc, hv, issueTokens, AuthResult.fail]
          | some a =>
            cases rSec with
            | none => left; simp [login, hc, hv, issueTokens, AuthResult.fail]
            | some r =>
              right
              exact ⟨u, by simp [login, hc, hv, issueTokens],
                by simp [login, hc, hv, issueTokens]⟩
      · left; simp [login, hc, AuthResult.fail]
  · intro aSec rSec lookup c nowMs
    cases lookup with
    | none => left; rfl
    | some u =>
      by_cases hA : otpActive u.otp = true
      · by_cases hE : u.otp.expiresAt.getD 0 < nowMs
        · left; simp [verifyOtp, hA, hE, AuthResult.fail]
        · by_cases hcmp : bcryptCompare c (u.otp.codeHash.getD "") = true
          · cases aSec with
            | none =>
                left; simp [verifyOtp, hA, hE, hcmp, issueTokens, AuthResult.fail]
            | some a =>
              cases rSec with
              | none =>
                  left
                  simp [verifyOtp, hA, hE, hcmp, issueTokens, AuthResult.fail]
              | some r =>
                right
                exact ⟨{ u with emailVerified := true, otp := Otp.empty },
                  by simp [verifyOtp, hA, hE, hcmp, issueTokens],
                  by simp [verifyOtp, hA, hE, hcmp, issueTokens]⟩
          · left; simp [verifyOtp, hA, hE, hcmp, AuthResult.fail]
      · left; simp [verifyOtp, hA, AuthResult.fail]
  · intro aSec rSec cookie findById nowSec
    cases cookie with
    | none => left; rfl
    | some tok =>
      cases aSec with
      | none =>
          cases rSec with
          | none => left; rfl
          | some r => left; rfl
      | some a =>
        cases rSec with
        | none => left; rfl
        | some r =>
          by_cases hs : tok.secret = r
          · by_cases he : tok.exp ≤ nowSec
            · left; simp [refreshHandler, jwtVerify, hs, he, AuthResult.failClear]
            · by_cases ht : tok.payload.type = some "refresh"
              · cases hf : findById tok.payload.sub with
                | none =>
                    left
                    simp [refreshHandler, jwtVerify, hs, he, ht, hf,
                      AuthResult.fail]
                | some u =>
                  right
                  exact ⟨u, by
                    simp [refreshHandler, jwtVerify, hs, he, ht, hf, issueTokens]⟩
              · left
                simp [refreshHandler, jwtVerify, hs, he, ht, AuthResult.failClear]
          · left; simp [refreshHandler, jwtVerify, hs, AuthResult.failClear]
  · intro evs aSec rSec tok findById nowMs
    cases evs with
    | none => left; rfl
    | some ev =>
      by_cases hs : tok.secret = ev
      · by_cases he : tok.exp ≤ nowMs / 1000
        · left; simp [verifyEmail, jwtVerify, hs, he, AuthResult.fail]
        · by_cases ht : tok.payload.type = some "email-verify"
          · cases hf : findById tok.payload.sub with
            | none =>
                left
                simp [verifyEmail, jwtVerify, hs, he, ht, hf, AuthResult.fail]
            | some u =>
              by_cases hm : u.email = tok.payload.email
              · by_cases hsup :
                    linkSuperseded tok.iat u.emailVerifyIssuedAt = true
                · left
                  simp [verifyEmail, jwtVerify, hs, he, ht, hf, hm, hsup,
                    AuthResult.fail]
                · cases aSec with
                  | none =>
                      left
                      simp [verifyEmail, jwtVerify, hs, he, ht, hf, hm, hsup,
                        issueTokens, AuthResult.fail]
                  | some a =>
                    cases rSec with
                    | none =>
                        left
                        simp [verifyEmail, jwtVerify, hs, he, ht, hf, hm, hsup,
                          issueTokens, AuthResult.fail]
                    | some r =>
                      right
                      refine ⟨?_, ?_, ?_⟩
                      · exact { u with emailVerified := true, emailVerifyIssuedAt := none, otp := Otp.empty }
                      · simp [verifyEmail, jwtVerify, hs, he, ht, hf, hm, hsup,
                          issueTokens]
                      · simp [verifyEmail, jwtVerify, hs, he, ht, hf, hm, hsup,
                          issueTokens]
              · left
                simp [verifyEmail, jwtVerify, hs, he, ht, hf, hm,
                  AuthResult.fail]
          · left; simp [verifyEmail, jwtVerify, hs, he, ht, AuthResult.fail]
      · left; simp [verifyEmail, jwtVerify, hs, AuthResult.fail]
  · intro lookup
    cases lookup with
    | none => left; rfl
    | some u => right; exact ⟨u, rfl, rfl⟩
  · intro lookup tags
    cases lookup with
    | none => left; rfl
    | some u =>
      right
      exact ⟨{ u with interests := (tags.map String.trim).filter (fun s => !s.isEmpty) },
        rfl, rfl⟩
  · intro existing fresh code nowMs
    cases existing with
    | none => right; rfl
    | some _ => left; rfl

theorem raceStep_inv (email : String) (b : Bool) (s : RaceState)
    (h : raceInv email s) : raceInv email (raceStep email b s) := by
  obtain ⟨hle, hsum, hs1, hs2, hf1, hf2⟩ := h
  simp only [succCount] at hsum
  cases b with
  | true =>
    cases hp : s.p1 with
    | start =>
      rw [hp] at hsum
      simp only [reduceCtorEq, if_false] at hsum
      by_cases hm : email ∈ s.store
      · simp only [raceStep, if_true, hp, stepProc, hm, if_pos]
        refine ⟨hle, ?_, ?_, hs2, fun _ => hm, hf2⟩
        · simpa [succCount] using hsum
        · intro st hst
          simp only [ProcState.done.injEq] at hst
          omega
      · simp only [raceStep, if_true, hp, stepProc, hm, if_neg, not_false_iff]
        refine ⟨hle, ?_, ?_, hs2, ?_, hf2⟩
        · simpa [succCount] using hsum
        · intro st hst
          simp at hst
        · intro hfs
          simp [failStatus] at hfs
    | checked =>
      rw [hp] at hsum
      simp only [reduceCtorEq, if_false] at hsum
      by_cases hm : email ∈ s.store
      · simp only [raceStep, if_true, hp, stepProc, hm, if_pos]
        refine ⟨hle, ?_, ?_, hs2, fun _ => hm, hf2⟩
        · simpa [succCount] using hsum
        · intro st hst
          simp only [ProcState.done.injEq] at hst
          omega
      · have hcount0 : s.store.count email = 0 := List.count_eq_zero.mpr hm
        have hp2 : (if s.p2 = ProcState.done 201 then 1 else 0) = 0 := by
          omega
        simp only [raceStep, if_true, hp, stepProc, hm, if_neg, not_false_iff]
        refine ⟨?_, ?_, ?_, hs2, ?_, ?_⟩
        · simp [List.count_cons_self, hcount0]
        · simp [succCount, List.count_cons_self, hcount0, hp2]
        · intro st hst
          simp only [ProcState.done.injEq] at hst
          omega
        · intro _
          exact List.mem_cons_self email s.store
        · intro hfs
          exact List.mem_cons_of_mem _ (hf2 hfs)
    | done st' =>
      rw [hp] at hsum
      simp only [raceStep, if_true, hp, stepProc]
      refine ⟨hle, ?_, ?_, hs2, ?_, hf2⟩
      · simpa [succCount] using hsum
      · intro st hst
        simp only [ProcState.done.injEq] at hst
        subst hst
        exact hs1 st' hp
      · intro hfs
        rw [← hp] at hfs
        exact hf1 hfs
  | false =>
    cases hp : s.p2 with
    | start =>
      rw [hp] at hsum
      simp only [reduceCtorEq, if_false] at hsum
      by_cases hm : email ∈ s.store
      · simp only [raceStep, Bool.false_eq_true, if_false, hp, stepProc, hm, if_pos]
        refine ⟨hle, ?_, hs1, ?_, hf1, fun _ => hm⟩
        · simpa [succCount] using hsum
        · intro st hst
          simp only [ProcState.done.injEq] at hst
          omega
      · simp only [raceStep, Bool.false_eq_true, if_false, hp, stepProc, hm, if_neg, not_false_iff]
        refine ⟨hle, ?_, hs1, ?_, hf1, ?_⟩
        · simpa [succCount] using hsum
        · intro st hst
          simp at hst
        · intro hfs
          simp [failStatus] at hfs
    | checked =>
      rw [hp] at hsum
      simp only [reduceCtorEq, if_false] at hsum
      by_cases hm : email ∈ s.store
      · simp only [raceStep, Bool.false_eq_true, if_false, hp, stepProc, hm, if_pos]
        refine ⟨hle, ?_, hs1, ?_, hf1, fun _ => hm⟩
        · simpa [succCount] using hsum
        · intro st hst
          simp only [ProcState.done.injEq] at hst
          omega
      · have hcount0 : s.store.count email = 0 := List.count_eq_zero.mpr hm
        have hp1 : (if s.p1 = ProcState.done 201 then 1 else 0) = 0 := by
          omega
        simp only [raceStep, Bool.false_eq_true, if_false, hp, stepProc, hm, if_neg, not_false_iff]
        refine ⟨?_, ?_, hs1, ?_, ?_, ?_⟩
        · simp [List.count_cons_self, hcount0]
        · simp [succCount, List.count_cons_self, hcount0, hp1]
        · intro st hst
          simp only [ProcState.done.injEq] at hst
          omega
        · intro hfs
          exact List.mem_cons_of_mem _ (hf1 hfs)
        · intro _
          exact List.mem_cons_self email s.store
    | done st' =>
      rw [hp] at hsum
      simp only [raceStep, Bool.false_eq_true, if_false, hp, stepProc]
      refine ⟨hle, ?_, hs1, ?_, hf1, ?_⟩
      · simpa [succCount] using hsum
      · intro st hst
        simp only [ProcState.done.injEq] at hst
        subst hst
        exact hs2 st' hp
      · intro hfs
        rw [← hp] at hfs
        exact hf2 hfs

theorem runSchedule_inv (email : String) (sched : List Bool) (s : RaceState)
    (h : raceInv email s) : raceInv email (runSchedule email sched s) := by
  induction sched generalizing s with
  | nil => exact h
  | cons b rest ih => exact ih (raceStep email b s) (raceStep_inv email b s h)

theorem raceInit_inv (email : String) : raceInv email raceInit := by
  refine ⟨?_, ?_, ?_, ?_, ?_, ?_⟩
  · simp [raceInit]
  · simp [raceInit, succCount]
  · intro st hst
    simp [raceInit] at hst
  · intro st hst
    simp [raceInit] at hst
  · intro hfs
    simp [raceInit, failStatus] at hfs
  · intro hfs
    simp [raceInit, failStatus] at hfs

/-- C10 (amended): for any two racing signup requests with the same email,
under every interleaving in which both finish, exactly one succeeds with 201
and the other fails — with 409 Conflict when its `findOne` pre-check saw the
duplicate, or with 500 when both pre-checks passed and the store's unique
index rejected the second insert inside the controller's `catch`. -/
theorem concurrent_signup_exactly_one (email : String) (sched : List Bool)
    (st1 st2 : Nat)
    (h1 : (runSchedule email sched raceInit).p1 = ProcState.done st1)
    (h2 : (runSchedule email sched raceInit).p2 = ProcState.done st2) :
    (st1 = 201 ∧ (st2 = 409 ∨ st2 = 500)) ∨
    (st2 = 201 ∧ (st1 = 409 ∨ st1 = 500)) := by
  set s' := runSchedule email sched raceInit with hdef
  obtain ⟨hle, hsum, hs1, hs2, hf1, hf2⟩ :=
    runSchedule_inv email sched raceInit (raceInit_inv email)
  rw [← hdef] at hle hsum hs1 hs2 hf1 hf2
  have hst1 := hs1 st1 h1
  have hst2 := hs2 st2 h2
  simp only [succCount, h1, h2, ProcState.done.injEq] at hsum
  by_cases e1 : st1 = 201
  · by_cases e2 : st2 = 201
    · rw [if_pos e1, if_pos e2] at hsum
      omega
    · exact Or.inl ⟨e1, by tauto⟩
  · have hfs : failStatus s'.p1 := by
      rcases hst1 with h | h | h
      · exact absurd h e1
      · exact Or.inl (by rw [h1, h])
      · exact Or.inr (by rw [h1, h])
    have hmem := hf1 hfs
    have hcpos : 0 < s'.store.count email := List.count_pos_iff.mpr hmem
    by_cases e2 : st2 = 201
    · exact Or.inr ⟨e2, by tauto⟩
    · rw [if_neg e1, if_neg e2] at hsum
      omega

/-- Witness for C10 (amended): under the interleaving pre-check₁, insert₁,
pre-check₂, the first request gets 201 and the second 409. -/
theorem concurrent_signup_exactly_one_witness :
    (201 = 201 ∧ (409 = 409 ∨ 409 = 500)) ∨
    (409 = 201 ∧ (201 = 409 ∨ 201 = 500)) :=
  concurrent_signup_exactly_one "a@b.c" [true, true, false, false] 201 409
    (by decide) (by decide)

/-- Counterexample to C10 as stated: under the racing interleaving
pre-check₁, pre-check₂, insert₁, insert₂ both pre-checks pass, the first
insert succeeds and the second hits the unique index, so the losing request
answers 500 (the controller's `catch`), not the 409 Conflict the claim
asserts. -/
theorem concurrent_signup_conflict_counterexample :
    (runSchedule "a@b.c" [true, false, true, false] raceInit).p1 =
      ProcState.done 201 ∧
    (runSchedule "a@b.c" [true, false, true, false] raceInit).p2 =
      ProcState.done 500 ∧
    (runSchedule "a@b.c" [true, false, true, false] raceInit).p2 ≠
      ProcState.done 409 := by
  refine ⟨by decide, by decide, by decide⟩

end Wowziri
